import Mathlib

/-!
Verification of the sondehub-analysis core (src/utils.py, src/bin_sonde_summaries.py).

Shallow embedding conventions:
* Python floats are modelled by real numbers `ℝ`; values that the code only
  ever compares or adds exactly (altitudes, velocities, table constants) are
  modelled by rationals `ℚ` and cast into `ℝ` where the code does float math.
* Python code that can raise is modelled with `Option`: `none` is an uncaught
  exception (e.g. an `IndexError`), `some` is a normal return value.
* Python dicts that the code iterates over are modelled as association lists
  in insertion order (CPython dicts preserve insertion order).
-/

namespace Sondehub

/-- `math.atan2 y x` (real-number semantics, no signed zeros). -/
noncomputable def atan2 (y x : ℝ) : ℝ :=
  if 0 < x then Real.arctan (y / x)
  else if x < 0 then
    (if 0 ≤ y then Real.arctan (y / x) + Real.pi else Real.arctan (y / x) - Real.pi)
  else
    (if 0 < y then Real.pi / 2 else if y < 0 then -(Real.pi / 2) else 0)

/-- `math.radians`. -/
noncomputable def toRadians (x : ℝ) : ℝ := x * Real.pi / 180

/-- `math.degrees`. -/
noncomputable def toDegrees (x : ℝ) : ℝ := x * 180 / Real.pi

/-- The dict returned by `position_info` (src/utils.py lines 85-98); the
`listener`/`balloon` echo entries are omitted since they merely repeat the
inputs. -/
structure PositionInfo where
  angle_at_centre : ℝ
  angle_at_centre_radians : ℝ
  bearing : ℝ
  bearing_radians : ℝ
  great_circle_distance : ℝ
  straight_distance : ℝ
  elevation : ℝ
  elevation_radians : ℝ

/-- `position_info` from src/utils.py lines 16-98.  Inputs are `(lat, lon, alt)`
triples in degrees / metres. -/
noncomputable def position_info (listener balloon : ℝ × ℝ × ℝ) : PositionInfo :=
  let radius : ℝ := 6364963
  let lat1 := toRadians listener.1
  let lon1 := toRadians listener.2.1
  let alt1 := listener.2.2
  let lat2 := toRadians balloon.1
  let lon2 := toRadians balloon.2.1
  let alt2 := balloon.2.2
  let d_lon := lon2 - lon1
  let sa := Real.cos lat2 * Real.sin d_lon
  let sb := Real.cos lat1 * Real.sin lat2 - Real.sin lat1 * Real.cos lat2 * Real.cos d_lon
  let bearing := atan2 sa sb
  let aa := Real.sqrt (sa ^ 2 + sb ^ 2)
  let ab := Real.sin lat1 * Real.sin lat2 + Real.cos lat1 * Real.cos lat2 * Real.cos d_lon
  let angle_at_centre := atan2 aa ab
  let great_circle_distance := angle_at_centre * radius
  let ta := radius + alt1
  let tb := radius + alt2
  let ea := Real.cos angle_at_centre * tb - ta
  let eb := Real.sin angle_at_centre * tb
  let elevation := atan2 ea eb
  let distance := Real.sqrt (ta ^ 2 + tb ^ 2 - 2 * tb * ta * Real.cos angle_at_centre)
  let bearing2 := if bearing < 0 then bearing + 2 * Real.pi else bearing
  { angle_at_centre := toDegrees angle_at_centre
    angle_at_centre_radians := angle_at_centre
    bearing := toDegrees bearing2
    bearing_radians := bearing2
    great_circle_distance := great_circle_distance
    straight_distance := distance
    elevation := toDegrees elevation
    elevation_radians := elevation }

/-! ## Atmosphere model (src/utils.py lines 102-174)

`getDensity` is a direct port of the oziplotter Atmosphere class.  The
lookup tables are exact decimal constants, modelled as rationals. -/

/-- `altitudes` lookup table (src/utils.py line 121). -/
def altitudesTable : List ℚ := [0, 11000, 20000, 32000, 47000, 51000, 71000, 84852]

/-- `pressureRels` lookup table (src/utils.py lines 122-131). -/
def pressureRelsTable : List ℚ :=
  [1, 2.23361105092158e-1, 5.403295010784876e-2, 8.566678359291667e-3,
   1.0945601337771144e-3, 6.606353132858367e-4, 3.904683373343926e-5,
   3.6850095235747942e-6]

/-- `temperatures` lookup table (src/utils.py line 132). -/
def temperaturesTable : List ℚ :=
  [288.15, 216.65, 216.65, 228.65, 270.65, 270.65, 214.65, 186.946]

/-- `tempGrads` lookup table (src/utils.py line 133). -/
def tempGradsTable : List ℚ := [-6.5, 0, 1, 2.8, 0, -2.8, -2, 0]

/-- The region-picking `while` loop of `getDensity` (src/utils.py lines
137-140), walking the boundaries above index `i`:
`while altitude > altitudes[i + 1]: i = i + 1`.
The list argument is `altitudesTable.drop (i + 1)`; running off its end is
the `IndexError` the Python loop raises, modelled as `none`. -/
def layerScan (altitude : ℚ) : ℕ → List ℚ → Option ℕ
  | _, [] => none
  | i, b :: rest => if b < altitude then layerScan altitude (i + 1) rest else some i

/-- The region index `i` picked by `getDensity` for a given altitude. -/
def layerIndex (altitude : ℚ) : Option ℕ :=
  if 0 < altitude then layerScan altitude 0 (altitudesTable.drop 1) else some 0

/-- `gravity * airMolWeight / RGas` (src/utils.py line 134). -/
def gMR : ℚ := 9.80665 * 28.9644 / 8.31432

/-- `densitySL` (src/utils.py line 110). -/
def densitySL : ℚ := 1.225

/-- `temperatureSL` (src/utils.py line 112). -/
def temperatureSL : ℚ := 288.15

/-- `deltaTemperature` (src/utils.py line 118). -/
def deltaTemperature : ℚ := 0

/-- `getDensity` from src/utils.py lines 102-167.  `none` models the
`IndexError` raised by the region loop when `altitude > 84852`.  The dead
locals `speedOfSound` and `pressure` (computed but unused by the returned
density) are omitted. -/
noncomputable def getDensity (altitude : ℚ) : Option ℝ :=
  (layerIndex altitude).bind fun i =>
    match temperaturesTable.get? i, tempGradsTable.get? i,
        pressureRelsTable.get? i, altitudesTable.get? i with
    | some baseTemp, some tg, some pressureRelBase, some base =>
      let tempGrad : ℚ := tg / 1000
      let deltaAltitude : ℚ := altitude - base
      let temperature : ℚ := baseTemp + tempGrad * deltaAltitude
      let pressureRel : ℝ :=
        if |tempGrad| < 1e-10 then
          (pressureRelBase : ℝ) *
            Real.exp (-1 * (gMR : ℝ) * (deltaAltitude : ℝ) / 1000 / (baseTemp : ℝ))
        else
          (pressureRelBase : ℝ) *
            ((baseTemp : ℝ) / (temperature : ℝ)) ^ ((gMR : ℝ) / (tempGrad : ℝ) / 1000)
      let temperature2 : ℚ := temperature + deltaTemperature
      some ((densitySL : ℝ) * pressureRel * (temperatureSL : ℝ) / (temperature2 : ℝ))
    | _, _, _, _ => none

/-- `seaLevelDescentRate` from src/utils.py lines 170-174. -/
noncomputable def seaLevelDescentRate (descent_rate : ℝ) (altitude : ℚ) : Option ℝ :=
  (getDensity altitude).map fun rho => Real.sqrt ((rho / 1.225) * descent_rate ^ 2)

/-! ## Binning engine (src/bin_sonde_summaries.py lines 60-87) -/

/-- The first-fix fields `bin_launch_data` reads (`float(telemetry['lat'])`,
`float(telemetry['lon'])`, `float(telemetry['alt'])`). -/
structure Telemetry where
  lat : ℝ
  lon : ℝ
  alt : ℝ

/-- A launch-site record.  The binning loop reads `station`, `lat`, `lon`;
the post-analysis step (src/bin_sonde_summaries.py lines 320-330) adds the
six statistics keys, modelled as optional fields that start absent. -/
structure Site where
  station : String
  lat : ℝ
  lon : ℝ
  burst_altitude : Option ℤ := none
  burst_samples : Option ℕ := none
  burst_std : Option ℤ := none
  descent_rate : Option ℝ := none
  descent_samples : Option ℕ := none
  descent_std : Option ℝ := none

/-- `_dist_km` for one site (src/bin_sonde_summaries.py lines 71-79): the
great-circle distance from `(site.lat, site.lon, 0)` to the fix, in km. -/
noncomputable def siteDist (telemetry : Telemetry) (site : Site) : ℝ :=
  (position_info (site.lat, site.lon, 0)
    (telemetry.lat, telemetry.lon, telemetry.alt)).great_circle_distance / 1000

/-- One iteration of the site loop (src/bin_sonde_summaries.py lines 81-84):
the accumulator is the pair `(min_site, min_dist)`. -/
noncomputable def binStep (radius : ℝ) (d : Site → ℝ) (acc : Option String × ℝ)
    (site : Site) : Option String × ℝ :=
  if 0 < d site ∧ d site < radius then
    (if d site < acc.2 then (some site.station, d site) else acc)
  else acc

/-- `bin_launch_data` from src/bin_sonde_summaries.py lines 60-87.  The site
index is an insertion-ordered list.  `position_info` is total on reals, so
the `try/except` around it is unreachable in the model; its handler is
examined separately (see `binHandlerMessageNames`). -/
noncomputable def bin_launch_data (telemetry : Telemetry) (sites : List Site)
    (radius alt_limit : ℝ) : Option String × ℝ :=
  if telemetry.alt > alt_limit then (none, 999999999)
  else sites.foldl (binStep radius (siteDist telemetry)) (none, 999999999)

/-- The local names bound inside `bin_launch_data` by the time its `except`
handler runs (parameters and locals, src/bin_sonde_summaries.py lines 60-72). -/
def binLaunchLocalNames : List String :=
  ["telemetry", "sites", "radius", "alt_limit", "_sonde", "min_dist",
   "min_site", "_site", "_site_loc"]

/-- The names interpolated by the `except` handler's log f-string
(src/bin_sonde_summaries.py line 76):
`f"Error performing calc: {_site}, {_telemetry['serial']} {_site_loc}, {_sonde}"`. -/
def binHandlerMessageNames : List String :=
  ["_site", "_telemetry", "_site_loc", "_sonde"]

/-! ## Aggregator (src/utils.py lines 215-272) -/

/-- The summary-point fields `calculate_averages` reads.  The remaining JSON
fields (serial, datetime, lat, lon, ...) are never touched by it and are
omitted. -/
structure TelemetryPoint where
  alt : ℚ
  vel_v : Option ℚ := none
  type : String := ""
  subtype : Option String := none

/-- A summary file's triple of points (launch, burst, landing). -/
structure Summary where
  first : TelemetryPoint
  burst : TelemetryPoint
  last : TelemetryPoint

/-- Python's substring containment (`needle in hay`). -/
def containsSub (hay needle : List Char) : Bool :=
  (List.range (hay.length + 1)).any fun k => needle.isPrefixOf (hay.drop k)

/-- The `'Sondehub'` marker excluded from the type histogram
(src/utils.py line 249). -/
def sondehubMarker : String := "Sondehub"

/-- `_type = _last['subtype'] if present else _last['type']`
(src/utils.py lines 243-246). -/
def typeOf (s : Summary) : String :=
  match s.last.subtype with
  | some st => st
  | none => s.last.type

/-- One `_types` histogram update (src/utils.py lines 250-253), on an
insertion-ordered association list. -/
def bumpType (m : List (String × ℕ)) (t : String) : List (String × ℕ) :=
  if m.any fun p => p.1 = t then
    m.map fun p => if p.1 = t then (p.1, p.2 + 1) else p
  else m ++ [(t, 1)]

/-- The `_types` histogram accumulated over the serial loop
(src/utils.py lines 243-253). -/
def types_of (serial_data : List (String × Summary)) : List (String × ℕ) :=
  serial_data.foldl
    (fun m p =>
      let t := typeOf p.2
      if containsSub t.data sondehubMarker.data then m else bumpType m t) []

/-- The `bursts` list accumulated over the serial loop
(src/utils.py lines 235-236). -/
def bursts_of : List (String × Summary) → List ℚ
  | [] => []
  | p :: rest =>
    if p.2.burst.alt > p.2.first.alt ∧ p.2.burst.alt > p.2.last.alt then
      p.2.burst.alt :: bursts_of rest
    else bursts_of rest

/-- The `descents` list accumulated over the serial loop
(src/utils.py lines 238-241).  `none` propagates the exception
`seaLevelDescentRate` would raise. -/
noncomputable def descents_of (descent_max_alt : ℚ) :
    List (String × Summary) → Option (List ℝ)
  | [] => some []
  | p :: rest =>
    if p.2.last.alt < p.2.burst.alt then
      match p.2.last.vel_v with
      | some v =>
        if v < 0 ∧ p.2.last.alt < descent_max_alt then
          match seaLevelDescentRate (v : ℝ) p.2.last.alt with
          | some r => (descents_of descent_max_alt rest).map fun ds => r :: ds
          | none => none
        else descents_of descent_max_alt rest
      | none => descents_of descent_max_alt rest
    else descents_of descent_max_alt rest

/-- `np.mean` (population mean). -/
noncomputable def npMean (l : List ℝ) : ℝ := l.sum / l.length

/-- `np.std` (population standard deviation, `ddof = 0`). -/
noncomputable def npStd (l : List ℝ) : ℝ :=
  Real.sqrt (npMean (l.map fun x => (x - npMean l) ^ 2))

/-- The `output` dict of `calculate_averages` (src/utils.py lines 257-271).
Whenever the dict is returned all seven keys are present, so a flat record
is faithful. -/
structure Averages where
  type : List (String × ℕ)
  burst_count : ℕ
  descent_count : ℕ
  burst_mean : ℝ
  burst_std : ℝ
  descent_mean : ℝ
  descent_std : ℝ

/-- `calculate_averages` from src/utils.py lines 215-272.  The outer `Option`
models an uncaught exception (only possible via `seaLevelDescentRate`); the
inner `Option` is the Python return value (`None` or the output dict). -/
noncomputable def calculate_averages (serial_data : List (String × Summary))
    (min_count : ℕ) (descent_max_alt : ℚ) : Option (Option Averages) :=
  (descents_of descent_max_alt serial_data).map fun descents =>
    let bursts := bursts_of serial_data
    if min_count ≤ bursts.length then
      some
        { type := types_of serial_data
          burst_count := bursts.length
          descent_count := descents.length
          burst_mean := npMean (bursts.map fun b => (b : ℝ))
          burst_std := npStd (bursts.map fun b => (b : ℝ))
          descent_mean := if min_count ≤ descents.length then npMean descents else -999
          descent_std := if min_count ≤ descents.length then npStd descents else -999 }
    else none

/-! ## Post-analysis site update (src/bin_sonde_summaries.py lines 318-330) -/

/-- Python `int()` on a float: truncation toward zero. -/
noncomputable def pyTrunc (x : ℝ) : ℤ := if 0 ≤ x then ⌊x⌋ else -⌊-x⌋

/-- Python's `round` to an integer: round half to even. -/
noncomputable def halfEvenRound (x : ℝ) : ℤ :=
  if Int.fract x = 1 / 2 then (if Even ⌊x⌋ then ⌊x⌋ else ⌊x⌋ + 1) else round x

/-- Python `round(x, 1)`. -/
noncomputable def pyRound1 (x : ℝ) : ℝ := (halfEvenRound (10 * x) : ℝ) / 10

/-- The per-site post-analysis update (src/bin_sonde_summaries.py lines
318-330): given the result of `calculate_averages(_serials)`, augment the
site record.  Burst keys are set whenever the result is non-`None`; descent
keys only under `_avgs['descent_count'] > 5`. -/
noncomputable def applyAverages (site : Site) (avgs : Option Averages) : Site :=
  match avgs with
  | none => site
  | some a =>
    let s1 := { site with
      burst_altitude := some (pyTrunc a.burst_mean)
      burst_samples := some a.burst_count
      burst_std := some (pyTrunc a.burst_std) }
    if 5 < a.descent_count then
      { s1 with
        descent_rate := some (pyRound1 a.descent_mean)
        descent_samples := some a.descent_count
        descent_std := some (pyRound1 a.descent_std) }
    else s1

/-! ## Spec-side sample-qualification predicates (section 4.4 of the spec),
used to state the aggregator claims. -/

/-- A summary's burst sample, per the spec: the burst altitude qualifies
exactly when it strictly exceeds both the first and the last fix's altitude. -/
def burstSample (s : Summary) : Option ℚ :=
  if s.first.alt < s.burst.alt ∧ s.last.alt < s.burst.alt then some s.burst.alt else none

/-- A summary's descent sample, per the spec: the last fix qualifies exactly
when its altitude is below the burst altitude, a vertical velocity is present
and negative, and the altitude is below the descent ceiling; the folded value
is the sea-level-normalized rate, not the raw velocity. -/
noncomputable def descentSample (descent_max_alt : ℚ) (s : Summary) : Option ℝ :=
  match s.last.vel_v with
  | some v =>
    if s.last.alt < s.burst.alt ∧ v < 0 ∧ s.last.alt < descent_max_alt then
      seaLevelDescentRate (v : ℝ) s.last.alt
    else none
  | none => none

/-! ## Concrete data for witnesses and counterexamples -/

/-- A telemetry point at a given altitude (type RS41, no vertical velocity). -/
def mkPoint (a : ℚ) : TelemetryPoint := { alt := a, type := "RS41" }

/-- A flight that yields a burst sample but no descent sample
(no `vel_v` on the last fix). -/
def flightNoDescent : Summary :=
  { first := mkPoint 0, burst := mkPoint 1000, last := mkPoint 0 }

/-- Five flights with qualifying bursts and no descent samples. -/
def dataNoDescent : List (String × Summary) :=
  [("S1", flightNoDescent), ("S2", flightNoDescent), ("S3", flightNoDescent),
   ("S4", flightNoDescent), ("S5", flightNoDescent)]

/-- A flight whose last fix qualifies for descent analysis
(altitude 100 m, falling at 6 m/s). -/
def flightWithDescent : Summary :=
  { first := mkPoint 0, burst := mkPoint 1000,
    last := { alt := 100, vel_v := some (-6), type := "RS41" } }

/-- Five flights with qualifying bursts and exactly five descent samples. -/
def dataFiveDescents : List (String × Summary) :=
  [("S1", flightWithDescent), ("S2", flightWithDescent), ("S3", flightWithDescent),
   ("S4", flightWithDescent), ("S5", flightWithDescent)]

/-- A bare site record with no statistics attached. -/
def plainSite : Site := { station := "CEX", lat := 0, lon := 0 }

/-- A first fix below the altitude cap. -/
def lowFix : Telemetry := { lat := -34.95, lon := 138.62, alt := 500 }

/-- A first fix above the default altitude cap of 5000 m. -/
def highFix : Telemetry := { lat := -34.95, lon := 138.62, alt := 6000 }

/-- A concrete aggregate with more than five descent samples. -/
def demoAverages : Averages :=
  { type := [], burst_count := 6, descent_count := 7, burst_mean := 25000,
    burst_std := 500, descent_mean := 6, descent_std := 1 }

/-! ## Proofs -/

lemma position_info_gcd (A B : ℝ × ℝ × ℝ) :
    (position_info A B).great_circle_distance =
      atan2
        (Real.sqrt ((Real.cos (toRadians B.1) * Real.sin (toRadians B.2.1 - toRadians A.2.1)) ^ 2 +
          (Real.cos (toRadians A.1) * Real.sin (toRadians B.1) -
            Real.sin (toRadians A.1) * Real.cos (toRadians B.1) *
              Real.cos (toRadians B.2.1 - toRadians A.2.1)) ^ 2))
        (Real.sin (toRadians A.1) * Real.sin (toRadians B.1) +
          Real.cos (toRadians A.1) * Real.cos (toRadians B.1) *
            Real.cos (toRadians B.2.1 - toRadians A.2.1)) * 6364963 := rfl

lemma swap_central_angle_args (la lb dl : ℝ) :
    (Real.cos la * Real.sin (-dl)) ^ 2 +
      (Real.cos lb * Real.sin la - Real.sin lb * Real.cos la * Real.cos (-dl)) ^ 2 =
    (Real.cos lb * Real.sin dl) ^ 2 +
      (Real.cos la * Real.sin lb - Real.sin la * Real.cos lb * Real.cos dl) ^ 2 := by
  have ha := Real.sin_sq_add_cos_sq la
  have hb := Real.sin_sq_add_cos_sq lb
  have hd := Real.sin_sq_add_cos_sq dl
  rw [Real.sin_neg, Real.cos_neg]
  linear_combination (Real.cos la ^ 2 - Real.cos lb ^ 2) * hd +
    (Real.cos dl ^ 2 - 1) * Real.cos la ^ 2 * hb +
    (1 - Real.cos dl ^ 2) * Real.cos lb ^ 2 * ha

/-- C8: swapping the two arguments of `position_info` leaves the great-circle
distance unchanged. -/
theorem position_info_distance_symm (A B : ℝ × ℝ × ℝ) :
    (position_info A B).great_circle_distance =
      (position_info B A).great_circle_distance := by
  rw [position_info_gcd, position_info_gcd]
  have hneg : toRadians A.2.1 - toRadians B.2.1 = -(toRadians B.2.1 - toRadians A.2.1) := by
    ring
  rw [hneg, swap_central_angle_args, Real.cos_neg]
  have hab : Real.sin (toRadians B.1) * Real.sin (toRadians A.1) +
      Real.cos (toRadians B.1) * Real.cos (toRadians A.1) *
        Real.cos (toRadians B.2.1 - toRadians A.2.1) =
      Real.sin (toRadians A.1) * Real.sin (toRadians B.1) +
        Real.cos (toRadians A.1) * Real.cos (toRadians B.1) *
          Real.cos (toRadians B.2.1 - toRadians A.2.1) := by ring
  rw [hab]

lemma layerScan_concrete (q : ℚ) (h : q ≤ 84852) :
    layerScan q 0 [11000, 20000, 32000, 47000, 51000, 71000, 84852] =
      some (if 71000 < q then 6 else if 51000 < q then 5 else if 47000 < q then 4
        else if 32000 < q then 3 else if 20000 < q then 2 else if 11000 < q then 1
        else 0) := by
  have h7 : ¬(84852 : ℚ) < q := not_lt.2 h
  by_cases h1 : (11000 : ℚ) < q
  · by_cases h2 : (20000 : ℚ) < q
    · by_cases h3 : (32000 : ℚ) < q
      · by_cases h4 : (47000 : ℚ) < q
        · by_cases h5 : (51000 : ℚ) < q
          · by_cases h6 : (71000 : ℚ) < q
            · simp [layerScan, h1, h2, h3, h4, h5, h6, h7]
            · simp [layerScan, h1, h2, h3, h4, h5, h6]
          · have h6 : ¬(71000 : ℚ) < q := fun hc => h5 (by linarith)
            simp [layerScan, h1, h2, h3, h4, h5, h6]
        · have h5 : ¬(51000 : ℚ) < q := fun hc => h4 (by linarith)
          have h6 : ¬(71000 : ℚ) < q := fun hc => h4 (by linarith)
          simp [layerScan, h1, h2, h3, h4, h5, h6]
      · have h4 : ¬(47000 : ℚ) < q := fun hc => h3 (by linarith)
        have h5 : ¬(51000 : ℚ) < q := fun hc => h3 (by linarith)
        have h6 : ¬(71000 : ℚ) < q := fun hc => h3 (by linarith)
        simp [layerScan, h1, h2, h3, h4, h5, h6]
    · have h3 : ¬(32000 : ℚ) < q := fun hc => h2 (by linarith)
      have h4 : ¬(47000 : ℚ) < q := fun hc => h2 (by linarith)
      have h5 : ¬(51000 : ℚ) < q := fun hc => h2 (by linarith)
      have h6 : ¬(71000 : ℚ) < q := fun hc => h2 (by linarith)
      simp [layerScan, h1, h2, h3, h4, h5, h6]
  · have h2 : ¬(20000 : ℚ) < q := fun hc => h1 (by linarith)
    have h3 : ¬(32000 : ℚ) < q := fun hc => h1 (by linarith)
    have h4 : ¬(47000 : ℚ) < q := fun hc => h1 (by linarith)
    have h5 : ¬(51000 : ℚ) < q := fun hc => h1 (by linarith)
    have h6 : ¬(71000 : ℚ) < q := fun hc => h1 (by linarith)
    simp [layerScan, h1, h2, h3, h4, h5, h6]

lemma layerIndex_closed (q : ℚ) (h : q ≤ 84852) :
    layerIndex q = some (if 71000 < q then 6 else if 51000 < q then 5
      else if 47000 < q then 4 else if 32000 < q then 3 else if 20000 < q then 2
      else if 11000 < q then 1 else 0) := by
  unfold layerIndex
  by_cases h0 : 0 < q
  · rw [if_pos h0]
    have hdrop : altitudesTable.drop 1 =
        [11000, 20000, 32000, 47000, 51000, 71000, 84852] := rfl
    rw [hdrop, layerScan_concrete q h]
  · rw [if_neg h0]
    have h1 : ¬(11000 : ℚ) < q := fun hc => h0 (by linarith)
    have h2 : ¬(20000 : ℚ) < q := fun hc => h0 (by linarith)
    have h3 : ¬(32000 : ℚ) < q := fun hc => h0 (by linarith)
    have h4 : ¬(47000 : ℚ) < q := fun hc => h0 (by linarith)
    have h5 : ¬(51000 : ℚ) < q := fun hc => h0 (by linarith)
    have h6 : ¬(71000 : ℚ) < q := fun hc => h0 (by linarith)
    simp [h1, h2, h3, h4, h5, h6]

lemma layerIndex_none (q : ℚ) (h : 84852 < q) : layerIndex q = none := by
  unfold layerIndex
  rw [if_pos (by linarith : (0 : ℚ) < q)]
  have h1 : (11000 : ℚ) < q := by linarith
  have h2 : (20000 : ℚ) < q := by linarith
  have h3 : (32000 : ℚ) < q := by linarith
  have h4 : (47000 : ℚ) < q := by linarith
  have h5 : (51000 : ℚ) < q := by linarith
  have h6 : (71000 : ℚ) < q := by linarith
  have hdrop : altitudesTable.drop 1 =
      [11000, 20000, 32000, 47000, 51000, 71000, 84852] := rfl
  rw [hdrop]
  simp [layerScan, h1, h2, h3, h4, h5, h6, h]

lemma getDensity_none (q : ℚ) (h : 84852 < q) : getDensity q = none := by
  unfold getDensity
  rw [layerIndex_none q h]
  rfl

lemma getDensity_isSome (q : ℚ) (h : q ≤ 84852) : ∃ rho, getDensity q = some rho := by
  have hl := layerIndex_closed q h
  split_ifs at hl <;>
    · unfold getDensity
      rw [hl]
      exact ⟨_, rfl⟩

/-- C1 (amended): for `0 ≤ altitude ≤ 84852` the region loop of `getDensity`
selects the layer with the greatest table boundary *strictly less than* the
altitude (layer 0 when no boundary is below it, in particular at exact
interior boundaries the lower layer is used); for altitudes above the top
boundary the lookup runs off the table and the function fails (`IndexError`)
instead of clamping to the last layer. -/
theorem getDensity_layer_selection (q : ℚ) :
    (0 ≤ q → q ≤ 84852 →
      ∃ i, layerIndex q = some i ∧ i < 8 ∧
        (i = 0 ∨ ∃ b, altitudesTable.get? i = some b ∧ b < q) ∧
        (∀ j b, altitudesTable.get? j = some b → b < q → j ≤ i)) ∧
    (84852 < q → layerIndex q = none ∧ getDensity q = none) := by
  constructor
  · intro _ hle
    have hl := layerIndex_closed q hle
    split_ifs at hl with h6 h5 h4 h3 h2 h1
    · refine ⟨6, hl, by norm_num, Or.inr ⟨71000, rfl, h6⟩, ?_⟩
      intro j b hj hb
      have hjl : j < 8 := by
        rcases List.get?_eq_some.1 hj with ⟨hlt, _⟩
        simpa [altitudesTable] using hlt
      interval_cases j <;> simp [altitudesTable] at hj <;> first | omega | linarith
    · refine ⟨5, hl, by norm_num, Or.inr ⟨51000, rfl, h5⟩, ?_⟩
      intro j b hj hb
      have hjl : j < 8 := by
        rcases List.get?_eq_some.1 hj with ⟨hlt, _⟩
        simpa [altitudesTable] using hlt
      interval_cases j <;> simp [altitudesTable] at hj <;> first | omega | linarith
    · refine ⟨4, hl, by norm_num, Or.inr ⟨47000, rfl, h4⟩, ?_⟩
      intro j b hj hb
      have hjl : j < 8 := by
        rcases List.get?_eq_some.1 hj with ⟨hlt, _⟩
        simpa [altitudesTable] using hlt
      interval_cases j <;> simp [altitudesTable] at hj <;> first | omega | linarith
    · refine ⟨3, hl, by norm_num, Or.inr ⟨32000, rfl, h3⟩, ?_⟩
      intro j b hj hb
      have hjl : j < 8 := by
        rcases List.get?_eq_some.1 hj with ⟨hlt, _⟩
        simpa [altitudesTable] using hlt
      interval_cases j <;> simp [altitudesTable] at hj <;> first | omega | linarith
    · refine ⟨2, hl, by norm_num, Or.inr ⟨20000, rfl, h2⟩, ?_⟩
      intro j b hj hb
      have hjl : j < 8 := by
        rcases List.get?_eq_some.1 hj with ⟨hlt, _⟩
        simpa [altitudesTable] using hlt
      interval_cases j <;> simp [altitudesTable] at hj <;> first | omega | linarith
    · refine ⟨1, hl, by norm_num, Or.inr ⟨11000, rfl, h1⟩, ?_⟩
      intro j b hj hb
      have hjl : j < 8 := by
        rcases List.get?_eq_some.1 hj with ⟨hlt, _⟩
        simpa [altitudesTable] using hlt
      interval_cases j <;> simp [altitudesTable] at hj <;> first | omega | linarith
    · refine ⟨0, hl, by norm_num, Or.inl rfl, ?_⟩
      intro j b hj hb
      have hjl : j < 8 := by
        rcases List.get?_eq_some.1 hj with ⟨hlt, _⟩
        simpa [altitudesTable] using hlt
      interval_cases j <;> simp [altitudesTable] at hj <;> first | omega | linarith
  · intro hgt
    exact ⟨layerIndex_none q hgt, getDensity_none q hgt⟩

/-- C1 counterexample: altitude 11000 is a non-negative altitude whose
greatest table boundary `≤` it is 11000 itself (index 1), yet the code picks
layer 0; and at altitude 90000 (beyond the top boundary) `getDensity` raises
an `IndexError` instead of returning a density. -/
theorem getDensity_layer_counterexample :
    layerIndex 11000 = some 0 ∧ altitudesTable.get? 1 = some 11000 ∧
      (11000 : ℚ) ≤ 11000 ∧ getDensity 90000 = none := by
  refine ⟨by decide, rfl, le_refl _, getDensity_none 90000 (by norm_num)⟩

theorem getDensity_layer_selection_witness :
    (∃ i, layerIndex 15000 = some i ∧ i < 8 ∧
        (i = 0 ∨ ∃ b, altitudesTable.get? i = some b ∧ b < 15000) ∧
        (∀ j b, altitudesTable.get? j = some b → b < 15000 → j ≤ i)) ∧
      (layerIndex 90000 = none ∧ getDensity 90000 = none) :=
  ⟨(getDensity_layer_selection 15000).1 (by norm_num) (by norm_num),
   (getDensity_layer_selection 90000).2 (by norm_num)⟩

lemma getDensity_zero : getDensity 0 = some 1.225 := by
  have hl : layerIndex 0 = some 0 := by decide
  unfold getDensity
  rw [hl]
  show some _ = some _
  congr 1
  have hgrad : ¬(|(-6.5 : ℚ) / 1000| < 1e-10) := by
    rw [abs_of_nonpos (by norm_num)]
    norm_num
  rw [if_neg hgrad]
  have hbase : ((288.15 : ℚ) : ℝ) ≠ 0 := by norm_num
  have hone : (((288.15 : ℚ) : ℝ) / ((288.15 : ℚ) + (-6.5 : ℚ) / 1000 * ((0 : ℚ) - 0) : ℚ)) = 1 := by
    norm_num
  norm_num [densitySL, temperatureSL, deltaTemperature, Real.one_rpow]

/-- C10: at sea level the normalization is the identity on magnitude:
`getDensity 0` is exactly the sea-level density constant `1.225`, and
`seaLevelDescentRate x 0 = |x|` for every rate `x`. -/
theorem seaLevelDescentRate_sea_level :
    getDensity 0 = some 1.225 ∧
      ∀ x : ℝ, seaLevelDescentRate x 0 = some |x| := by
  refine ⟨getDensity_zero, fun x => ?_⟩
  rw [seaLevelDescentRate, getDensity_zero]
  show some _ = some _
  congr 1
  show Real.sqrt ((1.225 : ℝ) / 1.225 * x ^ 2) = |x|
  rw [show ((1.225 : ℝ) / 1.225) = 1 by norm_num, one_mul, Real.sqrt_sq_eq_abs]

/-- C6: `seaLevelDescentRate x alt` is `sqrt((density(alt)/1.225) * x^2)`
whenever the density lookup succeeds (and raises exactly when it raises),
every value it returns is non-negative, and it is sign-insensitive in the
rate argument. -/
theorem seaLevelDescentRate_props (x : ℝ) (alt : ℚ) :
    seaLevelDescentRate x alt =
        (getDensity alt).map (fun rho => Real.sqrt ((rho / 1.225) * x ^ 2)) ∧
      0 ≤ (seaLevelDescentRate x alt).getD 0 ∧
      seaLevelDescentRate x alt = seaLevelDescentRate (-x) alt := by
  refine ⟨rfl, ?_, ?_⟩
  · cases h : getDensity alt with
    | none => simp [seaLevelDescentRate, h]
    | some rho => simp [seaLevelDescentRate, h, Real.sqrt_nonneg]
  · simp [seaLevelDescentRate, neg_sq]

lemma seaLevelDescentRate_some (x : ℝ) (q : ℚ) (h : q ≤ 84852) :
    ∃ r, seaLevelDescentRate x q = some r := by
  rcases getDensity_isSome q h with ⟨rho, hrho⟩
  exact ⟨Real.sqrt ((rho / 1.225) * x ^ 2), by rw [seaLevelDescentRate, hrho]; rfl⟩

lemma seaLevelDescentRate_nonneg (x : ℝ) (q : ℚ) (r : ℝ)
    (h : seaLevelDescentRate x q = some r) : 0 ≤ r := by
  rw [seaLevelDescentRate] at h
  cases hg : getDensity q with
  | none => rw [hg] at h; simp at h
  | some rho =>
    rw [hg] at h
    simp only [Option.map_some', Option.some.injEq] at h
    rw [← h]
    exact Real.sqrt_nonneg _

lemma bursts_of_eq (sd : List (String × Summary)) :
    bursts_of sd = sd.filterMap fun p => burstSample p.2 := by
  induction sd with
  | nil => rfl
  | cons p rest ih =>
    by_cases hc : p.2.first.alt < p.2.burst.alt ∧ p.2.last.alt < p.2.burst.alt
    · simp [bursts_of, burstSample, hc.1, hc.2, ih]
    · rw [not_and_or] at hc
      rcases hc with hc | hc <;>
        simp [bursts_of, burstSample, hc, ih, List.filterMap_cons]

lemma descents_of_eq (mx : ℚ) (h : mx ≤ 84852) (sd : List (String × Summary)) :
    descents_of mx sd = some (sd.filterMap fun p => descentSample mx p.2) := by
  induction sd with
  | nil => rfl
  | cons p rest ih =>
    by_cases h1 : p.2.last.alt < p.2.burst.alt
    · cases hv : p.2.last.vel_v with
      | none => simp [descents_of, descentSample, h1, hv, ih]
      | some v =>
        by_cases h2 : v < 0 ∧ p.2.last.alt < mx
        · have hlt : p.2.last.alt ≤ 84852 := le_trans (le_of_lt h2.2) h
          rcases seaLevelDescentRate_some (v : ℝ) p.2.last.alt hlt with ⟨r, hr⟩
          simp [descents_of, descentSample, h1, hv, h2.1, h2.2, hr, ih]
        · simp [descents_of, descentSample, h1, hv, h2, ih]
    · cases hv : p.2.last.vel_v with
      | none => simp [descents_of, descentSample, h1, hv, ih]
      | some v => simp [descents_of, descentSample, h1, hv, ih]

lemma descents_of_some (mx : ℚ) (h : mx ≤ 84852) (sd : List (String × Summary)) :
    ∃ ds, descents_of mx sd = some ds :=
  ⟨_, descents_of_eq mx h sd⟩

/-- C5: over any run of `calculate_averages`, a flight contributes a burst
sample exactly when its burst altitude strictly exceeds both the first and
the last fix's altitude, and a descent sample exactly when the last fix is
below the burst altitude, has a negative vertical velocity, and is below the
descent ceiling — the folded value being the sea-level-normalized rate
`seaLevelDescentRate(vel_v, last_alt)`, not the raw `vel_v`. -/
theorem averages_sample_qualification (sd : List (String × Summary)) (mx : ℚ)
    (h : mx ≤ 84852) :
    bursts_of sd = (sd.filterMap fun p => burstSample p.2) ∧
      descents_of mx sd = some (sd.filterMap fun p => descentSample mx p.2) :=
  ⟨bursts_of_eq sd, descents_of_eq mx h sd⟩

theorem averages_sample_qualification_witness :
    bursts_of dataFiveDescents = (dataFiveDescents.filterMap fun p => burstSample p.2) ∧
      descents_of 12000 dataFiveDescents =
        some (dataFiveDescents.filterMap fun p => descentSample 12000 p.2) :=
  averages_sample_qualification dataFiveDescents 12000 (by norm_num)

/-- C3: `calculate_averages` returns Python `None` (no partial aggregate)
exactly when fewer than `min_count` qualifying burst samples exist; with
enough burst samples but fewer than `min_count` descent samples it still
returns a full record whose descent mean/std are the `-999.0` sentinel while
the burst statistics and both counts are present. -/
theorem calculate_averages_policy (sd : List (String × Summary)) (mc : ℕ)
    (mx : ℚ) (h : mx ≤ 84852) :
    (calculate_averages sd mc mx = some none ↔ (bursts_of sd).length < mc) ∧
      (mc ≤ (bursts_of sd).length → ((descents_of mx sd).getD []).length < mc →
        calculate_averages sd mc mx = some (some
          { type := types_of sd
            burst_count := (bursts_of sd).length
            descent_count := ((descents_of mx sd).getD []).length
            burst_mean := npMean ((bursts_of sd).map fun b => (b : ℝ))
            burst_std := npStd ((bursts_of sd).map fun b => (b : ℝ))
            descent_mean := -999
            descent_std := -999 })) := by
  rcases descents_of_some mx h sd with ⟨ds, hds⟩
  constructor
  · rw [calculate_averages, hds]
    simp only [Option.map_some', Option.some.injEq]
    by_cases hb : mc ≤ (bursts_of sd).length
    · rw [if_pos hb]
      constructor
      · intro hc
        exact absurd hc (by simp)
      · intro hc
        omega
    · rw [if_neg hb]
      constructor
      · intro _
        omega
      · intro _
        rfl
  · intro hb hdlt
    rw [hds] at hdlt
    simp only [Option.getD_some] at hdlt
    rw [calculate_averages, hds]
    simp only [Option.map_some', Option.some.injEq, Option.getD_some]
    rw [if_pos hb, if_neg (by omega : ¬ mc ≤ ds.length), if_neg (by omega : ¬ mc ≤ ds.length)]

theorem calculate_averages_policy_witness :
    (calculate_averages dataNoDescent 5 12000 = some none ↔
        (bursts_of dataNoDescent).length < 5) ∧
      calculate_averages dataNoDescent 5 12000 = some (some
        { type := types_of dataNoDescent
          burst_count := (bursts_of dataNoDescent).length
          descent_count := ((descents_of 12000 dataNoDescent).getD []).length
          burst_mean := npMean ((bursts_of dataNoDescent).map fun b => (b : ℝ))
          burst_std := npStd ((bursts_of dataNoDescent).map fun b => (b : ℝ))
          descent_mean := -999
          descent_std := -999 }) :=
  ⟨(calculate_averages_policy dataNoDescent 5 12000 (by norm_num)).1,
   (calculate_averages_policy dataNoDescent 5 12000 (by norm_num)).2
     (by decide) (by decide)⟩

lemma atan2_nonneg_le_pi (y x : ℝ) (hy : 0 ≤ y) :
    0 ≤ atan2 y x ∧ atan2 y x ≤ Real.pi := by
  unfold atan2
  rcases lt_trichotomy 0 x with h1 | h1 | h1
  · rw [if_pos h1]
    constructor
    · have h0 : (0 : ℝ) ≤ y / x := div_nonneg hy h1.le
      calc (0 : ℝ) = Real.arctan 0 := Real.arctan_zero.symm
        _ ≤ Real.arctan (y / x) := Real.arctan_strictMono.monotone h0
    · have := Real.arctan_lt_pi_div_two (y / x)
      linarith [Real.pi_pos]
  · have hnx : ¬ 0 < x := by rw [← h1]; exact lt_irrefl 0
    have hnx2 : ¬ x < 0 := by rw [← h1]; exact lt_irrefl 0
    rw [if_neg hnx, if_neg hnx2]
    rcases eq_or_lt_of_le hy with hy0 | hy0
    · rw [if_neg (by rw [← hy0]; exact lt_irrefl 0), if_neg (not_lt.2 hy)]
      exact ⟨le_refl 0, Real.pi_pos.le⟩
    · rw [if_pos hy0]
      exact ⟨by linarith [Real.pi_pos], by linarith [Real.pi_pos]⟩
  · rw [if_neg (asymm h1), if_pos h1, if_pos hy]
    constructor
    · have := Real.neg_pi_div_two_lt_arctan (y / x)
      linarith [Real.pi_pos]
    · have h0 : y / x ≤ 0 := div_nonpos_iff.2 (Or.inl ⟨hy, h1.le⟩)
      have harc : Real.arctan (y / x) ≤ 0 :=
        calc Real.arctan (y / x) ≤ Real.arctan 0 := Real.arctan_strictMono.monotone h0
          _ = 0 := Real.arctan_zero
      linarith

lemma atan2_sqrt_bound (v w : ℝ) :
    0 ≤ atan2 (Real.sqrt v) w * 6364963 / 1000 ∧
      atan2 (Real.sqrt v) w * 6364963 / 1000 < 999999999 := by
  obtain ⟨h1, h2⟩ := atan2_nonneg_le_pi (Real.sqrt v) w (Real.sqrt_nonneg v)
  have hpi := Real.pi_le_four
  constructor
  · exact div_nonneg (mul_nonneg h1 (by norm_num)) (by norm_num)
  · linarith

lemma siteDist_bounds (t : Telemetry) (s : Site) :
    0 ≤ siteDist t s ∧ siteDist t s < 999999999 := by
  unfold siteDist
  rw [position_info_gcd]
  exact atan2_sqrt_bound _ _

lemma binFold_invariant (radius : ℝ) (d : Site → ℝ) :
    ∀ (l : List Site) (acc : Option String × ℝ),
      (l.foldl (binStep radius d) acc).2 ≤ acc.2 ∧
        ((l.foldl (binStep radius d) acc = acc ∧
            ∀ s ∈ l, 0 < d s → d s < radius → acc.2 ≤ d s) ∨
          (∃ i si, l.get? i = some si ∧ (0 < d si ∧ d si < radius) ∧
            l.foldl (binStep radius d) acc = (some si.station, d si) ∧
            d si < acc.2 ∧
            (∀ s ∈ l, 0 < d s → d s < radius → d si ≤ d s) ∧
            (∀ s ∈ l.take i, 0 < d s → d s < radius → d si < d s))) := by
  intro l
  induction l with
  | nil =>
    intro acc
    exact ⟨le_refl _, Or.inl ⟨rfl, by simp⟩⟩
  | cons s t ih =>
    intro acc
    by_cases hel : 0 < d s ∧ d s < radius
    · by_cases hlt : d s < acc.2
      · have hstep : binStep radius d acc s = (some s.station, d s) := by
          rw [binStep, if_pos hel, if_pos hlt]
        have hfold : (s :: t).foldl (binStep radius d) acc =
            t.foldl (binStep radius d) (some s.station, d s) := by
          rw [List.foldl_cons, hstep]
        obtain ⟨hA, hB⟩ := ih (some s.station, d s)
        constructor
        · rw [hfold]
          exact le_trans hA (le_of_lt hlt)
        · rcases hB with ⟨heq, hall⟩ | ⟨i, si, hget, heli, heq, hlt2, hmin, htake⟩
          · right
            refine ⟨0, s, rfl, hel, ?_, hlt, ?_, ?_⟩
            · rw [hfold, heq]
            · intro s' hs' h1 h2
              rcases List.mem_cons.1 hs' with rfl | hs't
              · exact le_refl _
              · exact hall s' hs't h1 h2
            · intro s' hs'
              simp at hs'
          · right
            refine ⟨i + 1, si, by simpa using hget, heli, ?_, lt_trans hlt2 hlt, ?_, ?_⟩
            · rw [hfold, heq]
            · intro s' hs' h1 h2
              rcases List.mem_cons.1 hs' with rfl | hs't
              · exact le_of_lt hlt2
              · exact hmin s' hs't h1 h2
            · intro s' hs' h1 h2
              rw [List.take_succ_cons] at hs'
              rcases List.mem_cons.1 hs' with rfl | hs't
              · exact hlt2
              · exact htake s' hs't h1 h2
      · have hstep : binStep radius d acc s = acc := by
          rw [binStep, if_pos hel, if_neg hlt]
        have hfold : (s :: t).foldl (binStep radius d) acc =
            t.foldl (binStep radius d) acc := by
          rw [List.foldl_cons, hstep]
        obtain ⟨hA, hB⟩ := ih acc
        constructor
        · rw [hfold]
          exact hA
        · rcases hB with ⟨heq, hall⟩ | ⟨i, si, hget, heli, heq, hlt2, hmin, htake⟩
          · left
            refine ⟨by rw [hfold, heq], ?_⟩
            intro s' hs' h1 h2
            rcases List.mem_cons.1 hs' with rfl | hs't
            · exact not_lt.1 hlt
            · exact hall s' hs't h1 h2
          · right
            refine ⟨i + 1, si, by simpa using hget, heli, by rw [hfold, heq], hlt2, ?_, ?_⟩
            · intro s' hs' h1 h2
              rcases List.mem_cons.1 hs' with rfl | hs't
              · exact le_of_lt (lt_of_lt_of_le hlt2 (not_lt.1 hlt))
              · exact hmin s' hs't h1 h2
            · intro s' hs' h1 h2
              rw [List.take_succ_cons] at hs'
              rcases List.mem_cons.1 hs' with rfl | hs't
              · exact lt_of_lt_of_le hlt2 (not_lt.1 hlt)
              · exact htake s' hs't h1 h2
    · have hstep : binStep radius d acc s = acc := by
        rw [binStep, if_neg hel]
      have hfold : (s :: t).foldl (binStep radius d) acc =
          t.foldl (binStep radius d) acc := by
        rw [List.foldl_cons, hstep]
      obtain ⟨hA, hB⟩ := ih acc
      constructor
      · rw [hfold]
        exact hA
      · rcases hB with ⟨heq, hall⟩ | ⟨i, si, hget, heli, heq, hlt2, hmin, htake⟩
        · left
          refine ⟨by rw [hfold, heq], ?_⟩
          intro s' hs' h1 h2
          rcases List.mem_cons.1 hs' with rfl | hs't
          · exact absurd ⟨h1, h2⟩ hel
          · exact hall s' hs't h1 h2
        · right
          refine ⟨i + 1, si, by simpa using hget, heli, by rw [hfold, heq], hlt2, ?_, ?_⟩
          · intro s' hs' h1 h2
            rcases List.mem_cons.1 hs' with rfl | hs't
            · exact absurd ⟨h1, h2⟩ hel
            · exact hmin s' hs't h1 h2
          · intro s' hs' h1 h2
            rw [List.take_succ_cons] at hs'
            rcases List.mem_cons.1 hs' with rfl | hs't
            · exact absurd ⟨h1, h2⟩ hel
            · exact htake s' hs't h1 h2

/-- C2: for a first fix under the altitude cap, the binning loop assigns a
site if and only if some site lies at distance `0 < d < radius` km (a site
at distance exactly 0 is never matched); when no site is eligible the result
is `(None, 999999999)`; and an assigned result names a site of minimal
eligible distance, earlier (first-seen) sites strictly beating later ones on
ties. -/
theorem bin_launch_data_selection (t : Telemetry) (sites : List Site)
    (radius alt_limit : ℝ) (halt : t.alt ≤ alt_limit) :
    ((∃ s ∈ sites, 0 < siteDist t s ∧ siteDist t s < radius) ↔
        (bin_launch_data t sites radius alt_limit).1 ≠ none) ∧
      ((∀ s ∈ sites, ¬(0 < siteDist t s ∧ siteDist t s < radius)) →
        bin_launch_data t sites radius alt_limit = (none, 999999999)) ∧
      (∀ name, (bin_launch_data t sites radius alt_limit).1 = some name →
        ∃ i si, sites.get? i = some si ∧ name = si.station ∧
          (bin_launch_data t sites radius alt_limit).2 = siteDist t si ∧
          0 < siteDist t si ∧ siteDist t si < radius ∧
          (∀ s ∈ sites, 0 < siteDist t s → siteDist t s < radius →
            siteDist t si ≤ siteDist t s) ∧
          (∀ s ∈ sites.take i, 0 < siteDist t s → siteDist t s < radius →
            siteDist t si < siteDist t s)) := by
  have hbin : bin_launch_data t sites radius alt_limit =
      sites.foldl (binStep radius (siteDist t)) (none, 999999999) := by
    rw [bin_launch_data, if_neg (not_lt.2 halt)]
  obtain ⟨_, hB⟩ := binFold_invariant radius (siteDist t) sites (none, 999999999)
  rcases hB with ⟨heq, hall⟩ | ⟨i, si, hget, heli, heq, _, hmin, htake⟩
  · have hnone : ∀ s ∈ sites, ¬(0 < siteDist t s ∧ siteDist t s < radius) := by
      intro s hs hc
      have hge := hall s hs hc.1 hc.2
      exact absurd hge (not_le.2 (siteDist_bounds t s).2)
    refine ⟨?_, ?_, ?_⟩
    · constructor
      · rintro ⟨s, hs, hc⟩
        exact absurd hc (hnone s hs)
      · intro hne
        rw [hbin, heq] at hne
        exact absurd rfl hne
    · intro _
      rw [hbin, heq]
    · intro name hname
      rw [hbin, heq] at hname
      exact absurd hname (by simp)
  · refine ⟨?_, ?_, ?_⟩
    · constructor
      · intro _
        rw [hbin, heq]
        simp
      · intro _
        exact ⟨si, List.get?_mem hget, heli⟩
    · intro hno
      exact absurd heli (hno si (List.get?_mem hget))
    · intro name hname
      rw [hbin, heq] at hname
      simp only [Option.some.injEq] at hname
      refine ⟨i, si, hget, hname.symm, by rw [hbin, heq], heli.1, heli.2, hmin, htake⟩

theorem bin_launch_data_selection_witness :
    ((∃ s ∈ ([] : List Site), 0 < siteDist lowFix s ∧ siteDist lowFix s < 30) ↔
        (bin_launch_data lowFix [] 30 5000).1 ≠ none) ∧
      ((∀ s ∈ ([] : List Site), ¬(0 < siteDist lowFix s ∧ siteDist lowFix s < 30)) →
        bin_launch_data lowFix [] 30 5000 = (none, 999999999)) ∧
      (∀ name, (bin_launch_data lowFix [] 30 5000).1 = some name →
        ∃ i si, ([] : List Site).get? i = some si ∧ name = si.station ∧
          (bin_launch_data lowFix [] 30 5000).2 = siteDist lowFix si ∧
          0 < siteDist lowFix si ∧ siteDist lowFix si < 30 ∧
          (∀ s ∈ ([] : List Site), 0 < siteDist lowFix s → siteDist lowFix s < 30 →
            siteDist lowFix si ≤ siteDist lowFix s) ∧
          (∀ s ∈ ([] : List Site).take i, 0 < siteDist lowFix s →
            siteDist lowFix s < 30 → siteDist lowFix si < siteDist lowFix s)) :=
  bin_launch_data_selection lowFix [] 30 5000 (by norm_num [lowFix])

/-- C4: a first fix above the altitude cap always bins to no site, with the
sentinel distance, for every radius and site index. -/
theorem bin_launch_data_alt_gate (t : Telemetry) (sites : List Site)
    (radius alt_limit : ℝ) (h : alt_limit < t.alt) :
    bin_launch_data t sites radius alt_limit = (none, 999999999) := by
  rw [bin_launch_data, if_pos h]

theorem bin_launch_data_alt_gate_witness :
    bin_launch_data highFix [plainSite] 30 5000 = (none, 999999999) :=
  bin_launch_data_alt_gate highFix [plainSite] 30 5000 (by norm_num [highFix])

/-- C7 (code bug): the `except` handler of `bin_launch_data` interpolates the
name `_telemetry`, which is not among the names bound in the function (the
parameter is `telemetry`), so on a failing distance computation the handler
itself raises `NameError` before logging the offending site and fix, and
`sys.exit(1)` is never reached. -/
theorem bin_error_handler_typo :
    "_telemetry" ∈ binHandlerMessageNames ∧ "_telemetry" ∉ binLaunchLocalNames := by
  decide

lemma npMean_nonneg (l : List ℝ) (h : ∀ r ∈ l, 0 ≤ r) : 0 ≤ npMean l :=
  div_nonneg (List.sum_nonneg h) (Nat.cast_nonneg _)

lemma descents_of_mem_nonneg (mx : ℚ) :
    ∀ (sd : List (String × Summary)) (ds : List ℝ),
      descents_of mx sd = some ds → ∀ r ∈ ds, 0 ≤ r := by
  intro sd
  induction sd with
  | nil =>
    intro ds hds r hr
    simp only [descents_of, Option.some.injEq] at hds
    subst hds
    exact absurd hr (List.not_mem_nil r)
  | cons p rest ih =>
    intro ds hds r hr
    by_cases h1 : p.2.last.alt < p.2.burst.alt
    · cases hv : p.2.last.vel_v with
      | none =>
        simp only [descents_of, if_pos h1, hv] at hds
        exact ih ds hds r hr
      | some v =>
        by_cases h2 : v < 0 ∧ p.2.last.alt < mx
        · simp only [descents_of, if_pos h1, hv, if_pos h2] at hds
          cases hslr : seaLevelDescentRate (v : ℝ) p.2.last.alt with
          | none =>
            rw [hslr] at hds
            simp at hds
          | some r0 =>
            rw [hslr] at hds
            simp only [Option.map_eq_some'] at hds
            rcases hds with ⟨ds', hds', hcons⟩
            subst hcons
            rcases List.mem_cons.1 hr with rfl | hr'
            · exact seaLevelDescentRate_nonneg _ _ _ hslr
            · exact ih ds' hds' r hr'
        · simp only [descents_of, if_pos h1, hv, if_neg h2] at hds
          exact ih ds hds r hr
    · simp only [descents_of, if_neg h1] at hds
      exact ih ds hds r hr

lemma sentinel_below (sd : List (String × Summary)) (mc : ℕ) (mx : ℚ)
    (a' : Averages) (hcalc : calculate_averages sd mc mx = some (some a'))
    (hmean : a'.descent_mean = -999) : a'.descent_count < mc := by
  cases hds : descents_of mx sd with
  | none =>
    rw [calculate_averages, hds] at hcalc
    simp at hcalc
  | some ds =>
    rw [calculate_averages, hds] at hcalc
    simp only [Option.map_some', Option.some.injEq] at hcalc
    by_cases hb : mc ≤ (bursts_of sd).length
    · rw [if_pos hb] at hcalc
      simp only [Option.some.injEq] at hcalc
      by_contra hcnt
      push_neg at hcnt
      have hdc := congrArg Averages.descent_count hcalc
      dsimp only at hdc
      have hmle : mc ≤ ds.length := by omega
      have hdm := congrArg Averages.descent_mean hcalc
      dsimp only at hdm
      rw [if_pos hmle] at hdm
      rw [hmean] at hdm
      have hnn := npMean_nonneg ds (descents_of_mem_nonneg mx sd ds hds)
      rw [hdm] at hnn
      norm_num at hnn
    · rw [if_neg hb] at hcalc
      simp at hcalc

/-- C9 (amended): whenever the aggregate is non-`None` the site record gets
`burst_altitude`, `burst_samples` and `burst_std`; the three descent fields
are added exactly when the descent sample count is *strictly greater than
five* (`_avgs['descent_count'] > 5`) — a site with exactly five descent
samples, whose descent mean is a real statistic and not the `-999.0`
sentinel, is left without descent fields; the sentinel case itself can never
pass this gate, since a `-999.0` mean implies fewer than `min_count`
samples. -/
theorem applyAverages_fields (site : Site) (a : Averages) :
    (applyAverages site (some a)).burst_altitude = some (pyTrunc a.burst_mean) ∧
      (applyAverages site (some a)).burst_samples = some a.burst_count ∧
      (applyAverages site (some a)).burst_std = some (pyTrunc a.burst_std) ∧
      (5 < a.descent_count →
        (applyAverages site (some a)).descent_rate = some (pyRound1 a.descent_mean) ∧
          (applyAverages site (some a)).descent_samples = some a.descent_count ∧
          (applyAverages site (some a)).descent_std = some (pyRound1 a.descent_std)) ∧
      (a.descent_count ≤ 5 →
        (applyAverages site (some a)).descent_rate = site.descent_rate ∧
          (applyAverages site (some a)).descent_samples = site.descent_samples ∧
          (applyAverages site (some a)).descent_std = site.descent_std) ∧
      (∀ (sd : List (String × Summary)) (mc : ℕ) (mx : ℚ) (a' : Averages),
        calculate_averages sd mc mx = some (some a') → a'.descent_mean = -999 →
          a'.descent_count < mc) := by
  by_cases hgt : 5 < a.descent_count
  · refine ⟨by simp [applyAverages, hgt], by simp [applyAverages, hgt],
      by simp [applyAverages, hgt], fun _ => ⟨by simp [applyAverages, hgt],
        by simp [applyAverages, hgt], by simp [applyAverages, hgt]⟩,
      fun hle => absurd hgt (by omega), ?_⟩
    intro sd mc mx a' hcalc hmean
    exact sentinel_below sd mc mx a' hcalc hmean
  · refine ⟨by simp [applyAverages, hgt], by simp [applyAverages, hgt],
      by simp [applyAverages, hgt], fun hlt => absurd hlt hgt,
      fun _ => ⟨by simp [applyAverages, hgt], by simp [applyAverages, hgt],
        by simp [applyAverages, hgt]⟩, ?_⟩
    intro sd mc mx a' hcalc hmean
    exact sentinel_below sd mc mx a' hcalc hmean

theorem applyAverages_fields_witness :
    (applyAverages plainSite (some demoAverages)).burst_altitude =
        some (pyTrunc demoAverages.burst_mean) ∧
      (applyAverages plainSite (some demoAverages)).descent_rate =
        some (pyRound1 demoAverages.descent_mean) ∧
      (applyAverages plainSite (some demoAverages)).descent_samples =
        some demoAverages.descent_count ∧
      (applyAverages plainSite (some demoAverages)).descent_std =
        some (pyRound1 demoAverages.descent_std) :=
  ⟨(applyAverages_fields plainSite demoAverages).1,
   ((applyAverages_fields plainSite demoAverages).2.2.2.1 (by decide)).1,
   ((applyAverages_fields plainSite demoAverages).2.2.2.1 (by decide)).2.1,
   ((applyAverages_fields plainSite demoAverages).2.2.2.1 (by decide)).2.2⟩

/-- C9 counterexample: five flights with five qualifying burst samples and
exactly five qualifying descent samples.  The aggregate is computed, its
descent count reaches the minimum threshold of 5 and its descent mean is a
real statistic (not the `-999.0` sentinel), yet the post-analysis step adds
no descent fields to the site, because the code's gate is
`descent_count > 5`, not `>= 5`. -/
theorem applyAverages_threshold_counterexample :
    ∃ a : Averages, calculate_averages dataFiveDescents 5 12000 = some (some a) ∧
      a.descent_count = 5 ∧ a.descent_mean ≠ -999 ∧
      (applyAverages plainSite (some a)).descent_rate = none ∧
      (applyAverages plainSite (some a)).descent_samples = none ∧
      (applyAverages plainSite (some a)).descent_std = none := by
  rcases seaLevelDescentRate_some ((-6 : ℚ) : ℝ) 100 (by norm_num) with ⟨r, hr⟩
  push_cast at hr
  have hnnr : 0 ≤ r := seaLevelDescentRate_nonneg _ _ _ hr
  have hcond1 : (100 : ℚ) < 1000 := by norm_num
  have hcond2 : (-6 : ℚ) < 0 := by norm_num
  have hcond3 : (100 : ℚ) < 12000 := by norm_num
  have hds : descents_of 12000 dataFiveDescents = some [r, r, r, r, r] := by
    simp [descents_of, dataFiveDescents, flightWithDescent, mkPoint,
      hcond1, hcond2, hcond3, hr]
  have hb : (5 : ℕ) ≤ (bursts_of dataFiveDescents).length := by decide
  refine ⟨{ type := types_of dataFiveDescents
            burst_count := (bursts_of dataFiveDescents).length
            descent_count := 5
            burst_mean := npMean ((bursts_of dataFiveDescents).map fun b => (b : ℝ))
            burst_std := npStd ((bursts_of dataFiveDescents).map fun b => (b : ℝ))
            descent_mean := npMean [r, r, r, r, r]
            descent_std := npStd [r, r, r, r, r] }, ?_, rfl, ?_, ?_, ?_, ?_⟩
  · rw [calculate_averages, hds]
    simp only [Option.map_some', Option.some.injEq]
    rw [if_pos hb]
    norm_num
  · have hnn : 0 ≤ npMean [r, r, r, r, r] := by
      apply npMean_nonneg
      intro x hx
      simp only [List.mem_cons, List.not_mem_nil, or_false, or_self] at hx
      rw [hx]
      exact hnnr
    intro heq
    dsimp only at heq
    rw [heq] at hnn
    norm_num at hnn
  · simp [applyAverages, plainSite]
  · simp [applyAverages, plainSite]
  · simp [applyAverages, plainSite]

end Sondehub
